import Mathlib

/-!
Shallow embedding of the MAX! Cube Home Assistant integration
(custom_components/maxcube): the coordinator (`__init__.py`), the climate
entity (`climate.py`) and the binary sensors (`binary_sensor.py`).
Temperatures are rationals (the Python floats involved are all half-degree
values), optional / possibly-absent Python attributes are `Option`s, and the
external gateway-client library (`maxcube.cube` / `maxcube.device`) is
modelled from the specification where its behaviour matters.
-/

namespace MaxcubeHA

/-- Device type tags. Modelled from the spec: "type tag (thermostat,
thermostat-plus, wall-thermostat, window-shutter, eco-switch)" plus the cube
itself, as imported from `maxcube.device` by the integration. -/
inductive DeviceType
  | cube
  | thermostat
  | thermostatPlus
  | wallThermostat
  | windowShutter
  | ecoSwitch
deriving DecidableEq

/-- `MAX_DEVICE_MODE_AUTOMATIC` from `maxcube.device` (imported by climate.py). -/
def MAX_DEVICE_MODE_AUTOMATIC : Nat := 0

/-- `MAX_DEVICE_MODE_MANUAL` from `maxcube.device` (imported by climate.py). -/
def MAX_DEVICE_MODE_MANUAL : Nat := 1

/-- `MAX_DEVICE_MODE_VACATION` from `maxcube.device` (imported by climate.py). -/
def MAX_DEVICE_MODE_VACATION : Nat := 2

/-- `MAX_DEVICE_MODE_BOOST` from `maxcube.device` (imported by climate.py). -/
def MAX_DEVICE_MODE_BOOST : Nat := 3

/-- A `maxcube.device.MaxDevice` as read by the integration.  Attributes the
Python code probes with `hasattr` / may find equal to `None` are `Option`s;
`valve_position` is `none` when the attribute is absent, and `is_open` /
`battery` distinguish an absent attribute (outer `none`) from an attribute
stored as Python `None` (inner `none`). -/
structure MaxDevice where
  rf_address : String
  serial : String
  devtype : DeviceType
  room_id : Nat
  name : String
  mode : Nat
  target_temperature : Option ℚ
  actual_temperature : Option ℚ
  comfort_temperature : Option ℚ
  eco_temperature : Option ℚ
  min_temperature : Option ℚ
  max_temperature : Option ℚ
  valve_position : Option Nat
  is_open : Option (Option Bool)
  battery : Option (Option Int)
deriving DecidableEq

/-- Modelled from the spec: capability checks (`is_thermostat`) "become
exhaustive matches over this tag"; thermostat and thermostat-plus both count. -/
def MaxDevice.is_thermostat (d : MaxDevice) : Bool :=
  d.devtype = DeviceType.thermostat || d.devtype = DeviceType.thermostatPlus

/-- Modelled from the spec: capability check for wall thermostats. -/
def MaxDevice.is_wallthermostat (d : MaxDevice) : Bool :=
  d.devtype = DeviceType.wallThermostat

/-- Modelled from the spec: capability check for window shutters. -/
def MaxDevice.is_windowshutter (d : MaxDevice) : Bool :=
  d.devtype = DeviceType.windowShutter

/-- A `maxcube.room.MaxRoom`: "id (stable small integer from gateway), name". -/
structure MaxRoom where
  id : Nat
  name : String
deriving DecidableEq

/-- A `maxcube.cube.MaxCube` snapshot: the gateway identity and its room and
device collections, as the coordinator hands it to the entities. -/
structure MaxCube where
  serial : String
  rooms : List MaxRoom
  devices : List MaxDevice
deriving DecidableEq

/-- Modelled from the spec: `find_by_rf_address(gateway, addr) -> Device |
NotFound`, "the only supported lookup after a refresh" — the library's
`device_by_rf` used by both `_handle_coordinator_update` methods. -/
def MaxCube.device_by_rf (c : MaxCube) (addr : String) : Option MaxDevice :=
  c.devices.find? (fun d => d.rf_address == addr)

/-- Modelled from the spec: room lookup by id (`room_by_id` of the library). -/
def MaxCube.room_by_id (c : MaxCube) (rid : Nat) : Option MaxRoom :=
  c.rooms.find? (fun r => r.id == rid)

/-- Modelled from the spec: `devices_in_room(gateway, room)` — the library's
`devices_by_room` used for the wall-thermostat valve scan. -/
def MaxCube.devices_by_room (c : MaxCube) (r : MaxRoom) : List MaxDevice :=
  c.devices.filter (fun d => d.room_id == r.id)

/-! ## Constants of climate.py (lines 44-47) -/

/-- `OFF_TEMPERATURE = 4.5` (climate.py line 44), written as `mkRat 9 2` so
that concrete instances evaluate; `OFF_TEMPERATURE_def` states the decimal. -/
def OFF_TEMPERATURE : ℚ := mkRat 9 2

/-- `ON_TEMPERATURE = 30.5` (climate.py line 45), written as `mkRat 61 2`;
`ON_TEMPERATURE_def` states the decimal. -/
def ON_TEMPERATURE : ℚ := mkRat 61 2

/-- `MIN_TEMPERATURE = 5.0` (climate.py line 46). -/
def MIN_TEMPERATURE : ℚ := 5

/-- `MAX_TEMPERATURE = 30.0` (climate.py line 47). -/
def MAX_TEMPERATURE : ℚ := 30

/-- The host platform's HVAC modes that reach `async_set_hvac_mode`; the
entity itself declares `[off, auto, heat]` but the method guards a catch-all
branch for any other member of the host enum. -/
inductive HVACMode
  | off
  | auto
  | heat
  | cool
  | dry
  | fanOnly
  | heatCool
deriving DecidableEq

/-- The host platform's HVAC actions used by `_update_attrs`. -/
inductive HVACAction
  | off
  | heating
  | idle
deriving DecidableEq

/-- The presets used by climate.py: the standard boost/comfort/eco/away and
the custom `PRESET_ON = "on"`. -/
inductive Preset
  | boost
  | comfort
  | eco
  | away
  | on
deriving DecidableEq

/-- `MODE_TO_HVAC_MODE` (climate.py lines 50-55): a partial map from the cube
mode integer to a host HVAC mode. -/
def MODE_TO_HVAC_MODE (m : Nat) : Option HVACMode :=
  if m = MAX_DEVICE_MODE_AUTOMATIC then some HVACMode.auto
  else if m = MAX_DEVICE_MODE_MANUAL then some HVACMode.heat
  else if m = MAX_DEVICE_MODE_VACATION then some HVACMode.auto
  else if m = MAX_DEVICE_MODE_BOOST then some HVACMode.auto
  else none

/-- `MaxCubeClimate.min_temp` (climate.py lines 224-230):
`getattr(self._device, 'min_temperature', MIN_TEMPERATURE) or MIN_TEMPERATURE`
then `max(min_t, MIN_TEMPERATURE)`.  A missing attribute, a `None` value and
the falsy `0.0` all fall back to `MIN_TEMPERATURE`. -/
def min_temp (d : MaxDevice) : ℚ :=
  let min_t : ℚ :=
    match d.min_temperature with
    | none => MIN_TEMPERATURE
    | some v => if v = 0 then MIN_TEMPERATURE else v
  max min_t MIN_TEMPERATURE

/-- `MaxCubeClimate.max_temp` (climate.py lines 232-238): same shape with
`min(max_t, MAX_TEMPERATURE)`. -/
def max_temp (d : MaxDevice) : ℚ :=
  let max_t : ℚ :=
    match d.max_temperature with
    | none => MAX_TEMPERATURE
    | some v => if v = 0 then MAX_TEMPERATURE else v
  min max_t MAX_TEMPERATURE

/-! ## Climate entity state attributes (`MaxCubeClimate._update_attrs`) -/

/-- The HVAC-mode computation of `_update_attrs` (climate.py lines 138-152):
manual mode at the off sentinel is `off`; otherwise the `MODE_TO_HVAC_MODE`
image, demoted from `heat` to `off` at the off sentinel; an unmapped mode
leaves the attribute `None`. -/
def hvac_mode_of (d : MaxDevice) : Option HVACMode :=
  if d.mode = MAX_DEVICE_MODE_MANUAL ∧ d.target_temperature = some OFF_TEMPERATURE then
    some HVACMode.off
  else
    match MODE_TO_HVAC_MODE d.mode with
    | some h =>
        if h = HVACMode.heat ∧ d.target_temperature = some OFF_TEMPERATURE then
          some HVACMode.off
        else some h
    | none => none

/-- The valve computation of `_update_attrs` (climate.py lines 155-164): a
thermostat's own valve position, or for a wall thermostat the largest valve
position strictly above the running maximum among the thermostats of its
room, starting from 0. -/
def valve_of (c : MaxCube) (d : MaxDevice) : Nat :=
  if d.is_thermostat && d.valve_position.isSome then
    d.valve_position.getD 0
  else if d.is_wallthermostat then
    match c.room_by_id d.room_id with
    | some room =>
        (c.devices_by_room room).foldl
          (fun v dev =>
            match dev.valve_position with
            | some vp => if dev.is_thermostat && decide (v < vp) then vp else v
            | none => v)
          0
    | none => 0
  else 0

/-- The target-temperature attribute computation of `_update_attrs`
(climate.py lines 176-192): cleared when off; kept when inside
`[min_temp, max_temp]`; otherwise `None` under auto and the comfort
temperature under any other mode. -/
def target_attr_of (d : MaxDevice) (hv : Option HVACMode) : Option ℚ :=
  if hv ≠ some HVACMode.off then
    match d.target_temperature with
    | some t =>
        if min_temp d ≤ t ∧ t ≤ max_temp d then some t
        else if hv = some HVACMode.auto then none
        else d.comfort_temperature
    | none =>
        if hv = some HVACMode.auto then none
        else d.comfort_temperature
  else none

/-- `MaxCubeClimate._get_current_preset` (climate.py lines 203-222). -/
def get_current_preset (d : MaxDevice) : Option Preset :=
  if d.mode = MAX_DEVICE_MODE_BOOST then some Preset.boost
  else if d.mode = MAX_DEVICE_MODE_VACATION then some Preset.away
  else if d.mode = MAX_DEVICE_MODE_MANUAL then
    if d.target_temperature = d.comfort_temperature then some Preset.comfort
    else if d.target_temperature = d.eco_temperature then some Preset.eco
    else if d.target_temperature = some ON_TEMPERATURE then some Preset.on
    else none
  else none

/-- The `_attr_*` fields `_update_attrs` writes. -/
structure ClimateAttrs where
  hvac_mode : Option HVACMode
  hvac_action : HVACAction
  current_temperature : Option ℚ
  target_temperature : Option ℚ
  preset_mode : Option Preset
  valve_attr : Option Nat
deriving DecidableEq

/-- `MaxCubeClimate._update_attrs` (climate.py lines 135-201) as a pure
function of the current cube snapshot and the entity's device. -/
def update_attrs (c : MaxCube) (d : MaxDevice) : ClimateAttrs :=
  let hv := hvac_mode_of d
  let valve := valve_of c d
  { hvac_mode := hv
    hvac_action :=
      if hv = some HVACMode.off then HVACAction.off
      else if 0 < valve then HVACAction.heating
      else HVACAction.idle
    current_temperature := d.actual_temperature
    target_temperature := target_attr_of d hv
    preset_mode := get_current_preset d
    valve_attr :=
      if d.is_thermostat && d.valve_position.isSome then d.valve_position else none }

/-- The mutable state of a `MaxCubeClimate` entity: the cached device
reference and the `_attr_*` fields. -/
structure ClimateEntityState where
  device : MaxDevice
  attrs : ClimateAttrs
deriving DecidableEq

/-- `MaxCubeClimate._handle_coordinator_update` (climate.py lines 120-133):
re-look up the device by `rf_address` in the coordinator's data; on a hit
replace the cached device and recompute every attribute, on a miss keep the
previous state (only a warning is logged). -/
def handle_coordinator_update (c : MaxCube) (e : ClimateEntityState) : ClimateEntityState :=
  match c.device_by_rf e.device.rf_address with
  | some d => { device := d, attrs := update_attrs c d }
  | none => e

/-! ## Binary sensors (binary_sensor.py) -/

/-- The mutable state of a `MaxCubeBinarySensorBase` entity. -/
structure BinarySensorState where
  device : MaxDevice
deriving DecidableEq

/-- `MaxCubeBinarySensorBase._handle_coordinator_update` (binary_sensor.py
lines 70-83): same rf_address re-lookup; on a miss the previous device is
kept. -/
def sensor_handle_coordinator_update (c : MaxCube) (e : BinarySensorState) :
    BinarySensorState :=
  match c.device_by_rf e.device.rf_address with
  | some d => { device := d }
  | none => e

/-- `MaxCubeShutter.is_on` (binary_sensor.py lines 96-103): the device's
`is_open` value, `None` when the attribute is absent. -/
def shutter_is_on (e : BinarySensorState) : Option Bool :=
  match e.device.is_open with
  | some v => v
  | none => none

/-- `MaxCubeBattery.is_on` (binary_sensor.py lines 117-125): `battery == 1`
when the attribute exists (Python `None == 1` is `False`), `None` otherwise. -/
def battery_is_on (e : BinarySensorState) : Option Bool :=
  match e.device.battery with
  | some v => some (v == some 1)
  | none => none

/-! ## Command path (`MaxCubeClimate._async_set_temperature_mode` and its
callers, climate.py lines 245-328) -/

/-- The one gateway command the integration sends:
`cube.set_temperature_mode(device, temperature, mode)`. -/
inductive CubeCommand
  | set_temperature_mode (rf : String) (temperature : Option ℚ) (mode : Option Nat)
deriving DecidableEq

/-- Externally visible actions of `_async_set_temperature_mode`. -/
inductive Effect
  | executor_send (cmd : CubeCommand)
  | request_refresh
deriving DecidableEq

/-- What `_async_set_temperature_mode` leaves behind: the entity state, the
actions performed, and the `HomeAssistantError` message it re-raises, if any. -/
structure CommandResult where
  state : ClimateEntityState
  effects : List Effect
  error : Option String
deriving DecidableEq

/-- `MaxCubeClimate._async_set_temperature_mode` (climate.py lines 307-328).
`sendOutcome` is the result of the executor job running the library call
`cube.set_temperature_mode`; on success the coordinator refresh is requested,
on failure the exception is wrapped into a `HomeAssistantError`.  In neither
case is `self._device` or any `_attr_*` field written. -/
def async_set_temperature_mode (e : ClimateEntityState) (temperature : Option ℚ)
    (mode : Option Nat) (sendOutcome : Except String Unit) : CommandResult :=
  let cmd := CubeCommand.set_temperature_mode e.device.rf_address temperature mode
  match sendOutcome with
  | Except.ok _ =>
      { state := e
        effects := [Effect.executor_send cmd, Effect.request_refresh]
        error := none }
  | Except.error msg =>
      { state := e
        effects := [Effect.executor_send cmd]
        error := some ("Failed to set mode/temperature: " ++ msg) }

/-- What `async_set_hvac_mode` does before delegating: the `(temperature,
mode)` pair it passes on, a `type_error` when Python would raise a
`TypeError`, or `unsupported` for a mode outside `{off, heat, auto}`. -/
inductive SetHvacOutcome
  | sent (temperature : Option ℚ) (mode : Nat)
  | type_error
  | unsupported
deriving DecidableEq

/-- The temperature candidate of the `HEAT` branch (climate.py lines
254-255): the entity's current target when above the off sentinel, otherwise
the device's comfort temperature (which may be absent). -/
def heat_candidate (e : ClimateEntityState) : Option ℚ :=
  match e.attrs.target_temperature with
  | some t => if OFF_TEMPERATURE < t then some t else e.device.comfort_temperature
  | none => e.device.comfort_temperature

/-- `MaxCubeClimate.async_set_hvac_mode` (climate.py lines 245-262).  In the
`HEAT` branch, `max(temp, self.min_temp)` raises a `TypeError` when the
candidate is Python `None`. -/
def async_set_hvac_mode (e : ClimateEntityState) : HVACMode → SetHvacOutcome
  | HVACMode.off => SetHvacOutcome.sent (some OFF_TEMPERATURE) MAX_DEVICE_MODE_MANUAL
  | HVACMode.heat =>
      match heat_candidate e with
      | some t =>
          SetHvacOutcome.sent (some (max t (min_temp e.device))) MAX_DEVICE_MODE_MANUAL
      | none => SetHvacOutcome.type_error
  | HVACMode.auto => SetHvacOutcome.sent none MAX_DEVICE_MODE_AUTOMATIC
  | _ => SetHvacOutcome.unsupported

/-- `max(self.min_temp, min(self.max_temp, temp))` (climate.py line 300). -/
def clamped_setpoint (d : MaxDevice) (t : ℚ) : ℚ :=
  max (min_temp d) (min (max_temp d) t)

/-- `MaxCubeClimate.async_set_temperature` (climate.py lines 293-305): with
no temperature in the call it returns without sending; otherwise it sends the
clamped value together with manual mode. -/
def async_set_temperature (e : ClimateEntityState) (tempArg : Option ℚ) :
    Option (Option ℚ × Nat) :=
  match tempArg with
  | none => none
  | some t => some (some (clamped_setpoint e.device t), MAX_DEVICE_MODE_MANUAL)

/-! ## Coordinator (`MaxCubeDataUpdateCoordinator`, `__init__.py`) -/

/-- The `UpdateFailed` exception `_async_update_data` raises, carrying the
underlying cause. -/
inductive UpdateError
  | update_failed (cause : String)
deriving DecidableEq

/-- `MaxCubeDataUpdateCoordinator._async_update_data` (`__init__.py` lines
131-152): `outcome` is what the executor job running `cube.update` produces —
the refreshed snapshot, or the exception it raised.  Both `except` arms
(`TimeoutError` and the catch-all `Exception`) re-raise `UpdateFailed` from
the original error. -/
def async_update_data (outcome : Except String MaxCube) : Except UpdateError MaxCube :=
  match outcome with
  | Except.ok c => Except.ok c
  | Except.error err => Except.error (UpdateError.update_failed err)

/-- The host coordinator's stored snapshot (`coordinator.data`). -/
structure CoordinatorState where
  data : Option MaxCube
deriving DecidableEq

/-- Modelled from the spec: "a failed refresh leaves the previous Gateway
snapshot in place" — the host `DataUpdateCoordinator` (an external
collaborator) stores the value `_async_update_data` returns and keeps the
previous `data` when it raises `UpdateFailed`. -/
def coordinator_refresh (st : CoordinatorState) (outcome : Except String MaxCube) :
    CoordinatorState × Except UpdateError MaxCube :=
  match async_update_data outcome with
  | Except.ok c => (⟨some c⟩, Except.ok c)
  | Except.error err => (st, Except.error err)

/-- `self.cube.use_persistent_connection = update_interval <=
timedelta(seconds=300)` (`__init__.py` line 122), with the interval in
seconds. -/
def use_persistent_connection (update_interval_s : ℚ) : Bool :=
  update_interval_s ≤ 300

/-- `DEFAULT_SCAN_INTERVAL = timedelta(seconds=30)` (`__init__.py` line 30). -/
def DEFAULT_SCAN_INTERVAL : ℚ := 30

/-! ## Lock discipline (`_update_lock`, `__init__.py` line 119/137 and the
command path, climate.py lines 307-321) -/

/-- The events of one session operation that matter for serialization:
acquiring/releasing the coordinator's `_update_lock`, performing wire
activity against the cube, and scheduling a refresh for later. -/
inductive SessionEvent
  | acquire_lock
  | release_lock
  | wire_refresh
  | wire_command (cmd : CubeCommand)
  | schedule_refresh
deriving DecidableEq

/-- The event sequence of `_async_update_data` (`__init__.py` lines 137-144):
`async with self._update_lock` around the executor job running
`cube.update`. -/
def async_update_data_events : List SessionEvent :=
  [SessionEvent.acquire_lock, SessionEvent.wire_refresh, SessionEvent.release_lock]

/-- The event sequence of `_async_set_temperature_mode` (climate.py lines
315-321): the executor job running `cube.set_temperature_mode` is wire
activity performed without any lock acquisition; `async_request_refresh` only
schedules a later (itself locked) refresh. -/
def set_temperature_mode_events (cmd : CubeCommand) : List SessionEvent :=
  [SessionEvent.wire_command cmd, SessionEvent.schedule_refresh]

/-- Whether every wire event of the trace happens while the lock is held,
tracking the hold depth. -/
def wire_under_lock : List SessionEvent → Nat → Bool
  | [], _ => true
  | SessionEvent.acquire_lock :: rest, n => wire_under_lock rest (n + 1)
  | SessionEvent.release_lock :: rest, n => wire_under_lock rest (n - 1)
  | SessionEvent.wire_refresh :: rest, n => decide (0 < n) && wire_under_lock rest n
  | SessionEvent.wire_command _ :: rest, n => decide (0 < n) && wire_under_lock rest n
  | SessionEvent.schedule_refresh :: rest, n => wire_under_lock rest n

/-- An operation holds the coordinator's lock for the duration of its wire
activity when every wire event of its trace happens at positive hold depth. -/
def holds_lock_during_wire (tr : List SessionEvent) : Bool :=
  wire_under_lock tr 0

/-- The claimed priority order of preset derivation, stated over the four
inputs (mode, target, comfort temperature, eco temperature) the claim names:
boost, then away, then — in manual mode — comfort before eco before the
"always on" sentinel, and `None` in every other case. -/
def preset_priority_spec (mode : Nat) (target comfort eco : Option ℚ) : Option Preset :=
  if mode = MAX_DEVICE_MODE_BOOST then some Preset.boost
  else if mode = MAX_DEVICE_MODE_VACATION then some Preset.away
  else if mode = MAX_DEVICE_MODE_MANUAL then
    if target = comfort then some Preset.comfort
    else if target = eco then some Preset.eco
    else if target = some ON_TEMPERATURE then some Preset.on
    else none
  else none

/-! ## Concrete sample data for witnesses and counterexamples -/

/-- A radiator thermostat as a refresh reports it. -/
def devA : MaxDevice :=
  { rf_address := "06c941"
    serial := "KEQ0565026"
    devtype := DeviceType.thermostat
    room_id := 1
    name := "Thermostat"
    mode := MAX_DEVICE_MODE_MANUAL
    target_temperature := some 21
    actual_temperature := some 20
    comfort_temperature := some 21
    eco_temperature := some 17
    min_temperature := some 5
    max_temperature := some 30
    valve_position := some 40
    is_open := none
    battery := some (some 0) }

/-- The stale cached copy of the same physical device: same `rf_address`,
different serial, mode and target. -/
def devA_stale : MaxDevice :=
  { devA with
    serial := "KEQ0000000"
    mode := MAX_DEVICE_MODE_AUTOMATIC
    target_temperature := some 18 }

/-- A snapshot containing `devA`. -/
def cubeA : MaxCube :=
  { serial := "KEQ0523864"
    rooms := [{ id := 1, name := "Living Room" }]
    devices := [devA] }

/-- A snapshot in which the entity's `rf_address` does not occur. -/
def cubeEmpty : MaxCube :=
  { serial := "KEQ0523864", rooms := [], devices := [] }

/-- Blank attribute block used as the pre-update entity attributes. -/
def attrs0 : ClimateAttrs :=
  { hvac_mode := none
    hvac_action := HVACAction.idle
    current_temperature := none
    target_temperature := none
    preset_mode := none
    valve_attr := none }

/-- A climate entity still holding the stale device. -/
def entA : ClimateEntityState := { device := devA_stale, attrs := attrs0 }

/-- A binary sensor still holding the stale device. -/
def sensA : BinarySensorState := { device := devA_stale }

/-- A device whose comfort temperature is absent (Python `None`): freshly
paired thermostats report no comfort temperature yet. -/
def dev_no_comfort : MaxDevice := { devA with comfort_temperature := none }

/-- A climate entity with no usable current target and no comfort fallback. -/
def ent_no_comfort : ClimateEntityState := { device := dev_no_comfort, attrs := attrs0 }

/-- A device reporting an out-of-range minimum temperature above 30. -/
def dev_min31 : MaxDevice := { devA with min_temperature := some 31 }

/-- A climate entity holding `dev_min31`. -/
def ent_min31 : ClimateEntityState := { device := dev_min31, attrs := attrs0 }

/-- A device reporting the "always on" sentinel 30.5 as its minimum
temperature. -/
def dev_min_on : MaxDevice := { devA with min_temperature := some (mkRat 61 2) }

/-- A manual-mode device on which target, comfort and eco temperature all
collide at the "always on" sentinel. -/
def dev_collide : MaxDevice :=
  { devA with
    target_temperature := some ON_TEMPERATURE
    comfort_temperature := some ON_TEMPERATURE
    eco_temperature := some ON_TEMPERATURE }

/-- A device with a low battery. -/
def dev_batt_low : MaxDevice := { devA with battery := some (some 1) }

/-- A window shutter currently open, with no battery attribute. -/
def dev_shutter : MaxDevice :=
  { devA with
    devtype := DeviceType.windowShutter
    valve_position := none
    is_open := some (some true)
    battery := none }

/-! ## Helper lemmas -/

/-- `OFF_TEMPERATURE` is the decimal 4.5 of climate.py. -/
theorem OFF_TEMPERATURE_def : OFF_TEMPERATURE = (4.5 : ℚ) := by
  norm_num [OFF_TEMPERATURE, Rat.mkRat_eq_div]

/-- `ON_TEMPERATURE` is the decimal 30.5 of climate.py. -/
theorem ON_TEMPERATURE_def : ON_TEMPERATURE = (30.5 : ℚ) := by
  norm_num [ON_TEMPERATURE, Rat.mkRat_eq_div]

/-- The entity floor: `min_temp` is at least `MIN_TEMPERATURE = 5`. -/
theorem min_temp_ge (d : MaxDevice) : MIN_TEMPERATURE ≤ min_temp d :=
  le_max_right _ _

/-- The entity ceiling: `max_temp` is at most `MAX_TEMPERATURE = 30`. -/
theorem max_temp_le (d : MaxDevice) : max_temp d ≤ MAX_TEMPERATURE :=
  min_le_right _ _

/-- The off sentinel lies strictly below the entity floor. -/
theorem OFF_lt_MIN : OFF_TEMPERATURE < MIN_TEMPERATURE := by decide

/-- The entity ceiling lies strictly below the "always on" sentinel. -/
theorem MAX_lt_ON : MAX_TEMPERATURE < ON_TEMPERATURE := by decide

/-! ## Claim theorems -/

/-- C1: on every coordinator update, when the new snapshot contains a device
with the entity's stored `rf_address`, the climate entity replaces its cached
device with that device and recomputes every state attribute from the new
snapshot alone (so two entities that cached different stale copies with the
same `rf_address` end up in the same state), the binary sensor replaces its
cached device likewise; when the lookup misses, both keep their previous
state unchanged. -/
theorem c1_refresh_rebinds_device_by_rf (c : MaxCube) (e e' : ClimateEntityState)
    (s : BinarySensorState) (d : MaxDevice) :
    (c.device_by_rf e.device.rf_address = some d →
      handle_coordinator_update c e = { device := d, attrs := update_attrs c d }) ∧
    (c.device_by_rf e.device.rf_address = none →
      handle_coordinator_update c e = e) ∧
    (c.device_by_rf s.device.rf_address = some d →
      sensor_handle_coordinator_update c s = { device := d }) ∧
    (c.device_by_rf s.device.rf_address = none →
      sensor_handle_coordinator_update c s = s) ∧
    (e.device.rf_address = e'.device.rf_address →
      c.device_by_rf e.device.rf_address = some d →
      handle_coordinator_update c e = handle_coordinator_update c e') := by
  refine ⟨?_, ?_, ?_, ?_, ?_⟩
  · intro h; simp [handle_coordinator_update, h]
  · intro h; simp [handle_coordinator_update, h]
  · intro h; simp [sensor_handle_coordinator_update, h]
  · intro h; simp [sensor_handle_coordinator_update, h]
  · intro hrf h
    have h' : c.device_by_rf e'.device.rf_address = some d := by rw [← hrf]; exact h
    simp [handle_coordinator_update, h, h']

/-- C1 witness: on the concrete snapshot `cubeA` the stale entity is rebound
to `devA` and its attributes recomputed; on a snapshot without the
`rf_address` both entities stay unchanged. -/
theorem c1_refresh_rebinds_device_by_rf_witness :
    handle_coordinator_update cubeA entA =
      { device := devA, attrs := update_attrs cubeA devA } ∧
    handle_coordinator_update cubeEmpty entA = entA ∧
    sensor_handle_coordinator_update cubeA sensA = { device := devA } := by
  refine ⟨?_, ?_, ?_⟩
  · exact (c1_refresh_rebinds_device_by_rf cubeA entA entA sensA devA).1 rfl
  · exact (c1_refresh_rebinds_device_by_rf cubeEmpty entA entA sensA devA).2.1 rfl
  · exact (c1_refresh_rebinds_device_by_rf cubeA entA entA sensA devA).2.2.1 rfl

/-- C2: `_async_set_temperature_mode` never changes the entity's cached
device or attributes, whatever the library call's outcome; on success its
only actions are sending the command and requesting a coordinator refresh,
and no error is raised. -/
theorem c2_command_path_frame (e : ClimateEntityState) (temperature : Option ℚ)
    (mode : Option Nat) (outcome : Except String Unit) :
    (async_set_temperature_mode e temperature mode outcome).state = e ∧
    (outcome = Except.ok () →
      (async_set_temperature_mode e temperature mode outcome).effects =
        [Effect.executor_send
          (CubeCommand.set_temperature_mode e.device.rf_address temperature mode),
         Effect.request_refresh] ∧
      (async_set_temperature_mode e temperature mode outcome).error = none) := by
  cases outcome <;> simp [async_set_temperature_mode]

/-- C2 witness: a successful off command from the concrete entity leaves its
state untouched and performs exactly the send and the refresh request. -/
theorem c2_command_path_frame_witness :
    (async_set_temperature_mode entA (some OFF_TEMPERATURE)
        (some MAX_DEVICE_MODE_MANUAL) (Except.ok ())).state = entA ∧
    (async_set_temperature_mode entA (some OFF_TEMPERATURE)
        (some MAX_DEVICE_MODE_MANUAL) (Except.ok ())).effects =
      [Effect.executor_send (CubeCommand.set_temperature_mode entA.device.rf_address
          (some OFF_TEMPERATURE) (some MAX_DEVICE_MODE_MANUAL)),
       Effect.request_refresh] ∧
    (async_set_temperature_mode entA (some OFF_TEMPERATURE)
        (some MAX_DEVICE_MODE_MANUAL) (Except.ok ())).error = none := by
  have h := c2_command_path_frame entA (some OFF_TEMPERATURE)
    (some MAX_DEVICE_MODE_MANUAL) (Except.ok ())
  exact ⟨h.1, (h.2 rfl).1, (h.2 rfl).2⟩

/-- C3: `_async_update_data` returns the refreshed snapshot on success, and
on any exception from `cube.update` raises exactly `UpdateFailed` carrying
the underlying cause; a failed refresh leaves the coordinator's previous
snapshot in place while a successful one stores the new snapshot. -/
theorem c3_update_data_wraps_failures (st : CoordinatorState)
    (outcome : Except String MaxCube) (c : MaxCube) (msg : String) :
    (outcome = Except.ok c →
      async_update_data outcome = Except.ok c ∧
      coordinator_refresh st outcome = (⟨some c⟩, Except.ok c)) ∧
    (outcome = Except.error msg →
      async_update_data outcome = Except.error (UpdateError.update_failed msg) ∧
      coordinator_refresh st outcome =
        (st, Except.error (UpdateError.update_failed msg))) := by
  constructor <;> intro h <;> subst h <;> exact ⟨rfl, rfl⟩

/-- C3 witness: a concrete failing update is wrapped into `UpdateFailed`
carrying its cause and the stored snapshot is kept. -/
theorem c3_update_data_wraps_failures_witness :
    async_update_data (Except.error "timeout") =
      Except.error (UpdateError.update_failed "timeout") ∧
    coordinator_refresh ⟨some cubeA⟩ (Except.error "timeout") =
      (⟨some cubeA⟩, Except.error (UpdateError.update_failed "timeout")) :=
  (c3_update_data_wraps_failures ⟨some cubeA⟩ (Except.error "timeout") cubeA "timeout").2
    rfl

/-- C4 counterexample: the command path of `_async_set_temperature_mode`
performs its wire activity without acquiring the coordinator's
`_update_lock` — refuting the claim that every session operation (refresh
and command alike) holds the lock for the duration of its wire activity. -/
theorem c4_command_unlocked_counterexample :
    holds_lock_during_wire (set_temperature_mode_events
      (CubeCommand.set_temperature_mode "06c941" (some OFF_TEMPERATURE)
        (some MAX_DEVICE_MODE_MANUAL))) = false := rfl

/-- C4 (amended): only `_async_update_data` holds `_update_lock` around its
wire activity, so two refreshes are mutually excluded; the command path sends
its command without acquiring the lock, so a command and a refresh are not
serialized against each other by this lock. -/
theorem c4_lock_only_on_refresh (cmd : CubeCommand) :
    holds_lock_during_wire async_update_data_events = true ∧
    holds_lock_during_wire (set_temperature_mode_events cmd) = false :=
  ⟨rfl, rfl⟩

/-- C5 counterexample: with no usable current target and an absent comfort
temperature, the `HEAT` branch of `async_set_hvac_mode` raises a Python
`TypeError` (from `max(None, self.min_temp)`) instead of sending a manual
command — refuting the claim that `HVACMode.HEAT` always sends manual mode
with a temperature above 4.5. -/
theorem c5_heat_none_counterexample :
    async_set_hvac_mode ent_no_comfort HVACMode.heat = SetHvacOutcome.type_error ∧
    heat_candidate ent_no_comfort = none :=
  ⟨rfl, rfl⟩

/-- C5 (amended): `OFF` sends manual mode with the off sentinel 4.5; `AUTO`
sends automatic mode with no temperature; `HEAT` — whenever the current
target (if above 4.5) or else the device's comfort temperature yields a
candidate — sends manual mode with a temperature strictly above 4.5 and at
least `min_temp`; with no candidate the `HEAT` branch raises a `TypeError`
and sends nothing. -/
theorem c5_hvac_mode_command_map (e : ClimateEntityState) (t : ℚ) :
    async_set_hvac_mode e HVACMode.off =
      SetHvacOutcome.sent (some OFF_TEMPERATURE) MAX_DEVICE_MODE_MANUAL ∧
    async_set_hvac_mode e HVACMode.auto =
      SetHvacOutcome.sent none MAX_DEVICE_MODE_AUTOMATIC ∧
    (heat_candidate e = some t →
      async_set_hvac_mode e HVACMode.heat =
        SetHvacOutcome.sent (some (max t (min_temp e.device))) MAX_DEVICE_MODE_MANUAL ∧
      OFF_TEMPERATURE < max t (min_temp e.device) ∧
      min_temp e.device ≤ max t (min_temp e.device)) ∧
    (heat_candidate e = none →
      async_set_hvac_mode e HVACMode.heat = SetHvacOutcome.type_error) := by
  refine ⟨rfl, rfl, ?_, ?_⟩
  · intro h
    refine ⟨by simp [async_set_hvac_mode, h], ?_, le_max_right _ _⟩
    calc OFF_TEMPERATURE < MIN_TEMPERATURE := OFF_lt_MIN
      _ ≤ min_temp e.device := min_temp_ge _
      _ ≤ max t (min_temp e.device) := le_max_right _ _
  · intro h; simp [async_set_hvac_mode, h]

/-- C5 witness: the concrete entity (comfort temperature 21) sends a manual
command above both sentinels from the `HEAT` branch. -/
theorem c5_hvac_mode_command_map_witness :
    async_set_hvac_mode entA HVACMode.heat =
      SetHvacOutcome.sent (some (max 21 (min_temp entA.device)))
        MAX_DEVICE_MODE_MANUAL ∧
    OFF_TEMPERATURE < max (21 : ℚ) (min_temp entA.device) ∧
    min_temp entA.device ≤ max (21 : ℚ) (min_temp entA.device) :=
  (c5_hvac_mode_command_map entA 21).2.2.1 rfl

/-- C6: the coordinator selects the persistent connection policy exactly when
the poll interval is at most 300 seconds, and the default scan interval of 30
seconds selects it. -/
theorem c6_persistent_policy (i : ℚ) :
    (use_persistent_connection i = true ↔ i ≤ 300) ∧
    use_persistent_connection DEFAULT_SCAN_INTERVAL = true := by
  constructor
  · simp [use_persistent_connection]
  · decide

/-- C7 counterexample: a device reporting `min_temperature = 31` yields a
"clamped" setpoint of 31, strictly above `max_temp = 30` — refuting the
claim that the sent value is never above `max_temp`. -/
theorem c7_clamp_above_max_counterexample :
    max_temp dev_min31 < clamped_setpoint dev_min31 20 ∧
    async_set_temperature ent_min31 (some 20) =
      some (some (clamped_setpoint dev_min31 20), MAX_DEVICE_MODE_MANUAL) :=
  ⟨by decide, rfl⟩

/-- C7 (amended): `async_set_temperature` always sends
`max(min_temp, min(max_temp, t))` together with manual mode; the sent value
is never below `min_temp`, and it is also never above `max_temp` provided
`min_temp ≤ max_temp` (which the code does not guarantee for devices
reporting a minimum above 30); with no temperature argument nothing is
sent. -/
theorem c7_set_temperature_clamps (e : ClimateEntityState) (t : ℚ) :
    async_set_temperature e (some t) =
      some (some (clamped_setpoint e.device t), MAX_DEVICE_MODE_MANUAL) ∧
    min_temp e.device ≤ clamped_setpoint e.device t ∧
    (min_temp e.device ≤ max_temp e.device →
      clamped_setpoint e.device t ≤ max_temp e.device) ∧
    async_set_temperature e none = none := by
  refine ⟨rfl, le_max_left _ _, ?_, rfl⟩
  intro h
  exact max_le h (min_le_left _ _)

/-- C7 witness: on the concrete entity the clamped setpoint of 20 lies within
`[min_temp, max_temp]` and is sent with manual mode. -/
theorem c7_set_temperature_clamps_witness :
    async_set_temperature entA (some 20) =
      some (some (clamped_setpoint entA.device 20), MAX_DEVICE_MODE_MANUAL) ∧
    min_temp entA.device ≤ clamped_setpoint entA.device 20 ∧
    clamped_setpoint entA.device 20 ≤ max_temp entA.device ∧
    async_set_temperature entA none = none := by
  have h := c7_set_temperature_clamps entA 20
  exact ⟨h.1, h.2.1, h.2.2.1 (by decide), h.2.2.2⟩

/-- C8 counterexample: a device reporting `min_temperature = 30.5` makes the
clamped setpoint equal the reserved "always on" sentinel 30.5 — refuting the
claim that clamped setpoints can never equal the sentinels. -/
theorem c8_sentinel_reachable_counterexample :
    clamped_setpoint dev_min_on 20 = ON_TEMPERATURE := by decide

/-- C8 (amended): `min_temp` is always at least 5.0 and `max_temp` at most
30.0, whatever the device reports; the clamped setpoint can never equal the
off sentinel 4.5, and it can never equal the on sentinel 30.5 provided
`min_temp ≤ 30` (the code does not bound `min_temp` above, so a device
reporting `min_temperature = 30.5` defeats the sentinel avoidance). -/
theorem c8_bounds_and_sentinels (d : MaxDevice) (t : ℚ) :
    MIN_TEMPERATURE ≤ min_temp d ∧
    max_temp d ≤ MAX_TEMPERATURE ∧
    clamped_setpoint d t ≠ OFF_TEMPERATURE ∧
    (min_temp d ≤ MAX_TEMPERATURE → clamped_setpoint d t ≠ ON_TEMPERATURE) := by
  refine ⟨min_temp_ge d, max_temp_le d, ?_, ?_⟩
  · have h1 : OFF_TEMPERATURE < clamped_setpoint d t :=
      lt_of_lt_of_le (lt_of_lt_of_le OFF_lt_MIN (min_temp_ge d)) (le_max_left _ _)
    exact ne_of_gt h1
  · intro h
    have h2 : clamped_setpoint d t ≤ MAX_TEMPERATURE :=
      max_le h ((min_le_left _ _).trans (max_temp_le d))
    exact ne_of_lt (lt_of_le_of_lt h2 MAX_lt_ON)

/-- C8 witness: on the well-behaved concrete device the clamped setpoint of a
request for 3 degrees equals neither sentinel and the bounds hold. -/
theorem c8_bounds_and_sentinels_witness :
    MIN_TEMPERATURE ≤ min_temp devA ∧
    max_temp devA ≤ MAX_TEMPERATURE ∧
    clamped_setpoint devA 3 ≠ OFF_TEMPERATURE ∧
    clamped_setpoint devA 3 ≠ ON_TEMPERATURE := by
  have h := c8_bounds_and_sentinels devA 3
  exact ⟨h.1, h.2.1, h.2.2.1, h.2.2.2 (by decide)⟩

/-- C9: preset derivation is a pure function of (mode, target, comfort
temperature, eco temperature) with fixed priority: boost mode yields the
boost preset, vacation mode the away preset; in manual mode a target equal to
the comfort temperature yields comfort before eco, eco before the "on"
preset at 30.5; every other case — automatic mode included — yields `None`. -/
theorem c9_preset_priority (d : MaxDevice) :
    get_current_preset d =
      preset_priority_spec d.mode d.target_temperature d.comfort_temperature
        d.eco_temperature ∧
    (d.mode = MAX_DEVICE_MODE_BOOST → get_current_preset d = some Preset.boost) ∧
    (d.mode = MAX_DEVICE_MODE_VACATION → get_current_preset d = some Preset.away) ∧
    (d.mode = MAX_DEVICE_MODE_MANUAL → d.target_temperature = d.comfort_temperature →
      get_current_preset d = some Preset.comfort) ∧
    (d.mode = MAX_DEVICE_MODE_MANUAL → d.target_temperature ≠ d.comfort_temperature →
      d.target_temperature = d.eco_temperature →
      get_current_preset d = some Preset.eco) ∧
    (d.mode = MAX_DEVICE_MODE_MANUAL → d.target_temperature ≠ d.comfort_temperature →
      d.target_temperature ≠ d.eco_temperature →
      d.target_temperature = some ON_TEMPERATURE →
      get_current_preset d = some Preset.on) ∧
    (d.mode = MAX_DEVICE_MODE_AUTOMATIC → get_current_preset d = none) := by
  refine ⟨rfl, ?_, ?_, ?_, ?_, ?_, ?_⟩
  · intro h
    simp [get_current_preset, h, MAX_DEVICE_MODE_BOOST]
  · intro h
    simp [get_current_preset, h, MAX_DEVICE_MODE_VACATION, MAX_DEVICE_MODE_BOOST]
  · intro h h1
    simp [get_current_preset, h, h1, MAX_DEVICE_MODE_MANUAL,
      MAX_DEVICE_MODE_VACATION, MAX_DEVICE_MODE_BOOST]
  · intro h h1 h2
    have h1' : d.eco_temperature ≠ d.comfort_temperature := fun hh => h1 (h2.trans hh)
    unfold get_current_preset
    rw [h, h2, if_neg (by decide), if_neg (by decide), if_pos rfl, if_neg h1',
      if_pos rfl]
  · intro h h1 h2 h3
    have h1' : (some ON_TEMPERATURE : Option ℚ) ≠ d.comfort_temperature :=
      fun hh => h1 (h3.trans hh)
    have h2' : (some ON_TEMPERATURE : Option ℚ) ≠ d.eco_temperature :=
      fun hh => h2 (h3.trans hh)
    unfold get_current_preset
    rw [h, h3, if_neg (by decide), if_neg (by decide), if_pos rfl, if_neg h1',
      if_neg h2', if_pos rfl]
  · intro h
    simp [get_current_preset, h, MAX_DEVICE_MODE_AUTOMATIC, MAX_DEVICE_MODE_MANUAL,
      MAX_DEVICE_MODE_VACATION, MAX_DEVICE_MODE_BOOST]

/-- C9 witness: when target, comfort and eco all collide at 30.5 in manual
mode, comfort wins the priority. -/
theorem c9_preset_priority_witness :
    get_current_preset dev_collide = some Preset.comfort :=
  (c9_preset_priority dev_collide).2.2.2.1 rfl rfl

/-- C10: each binary sensor reports `None` when its backing attribute is
absent; the battery sensor is on exactly when `battery == 1` (any other
value, 0 or Python `None` included, yields off), and the shutter sensor
returns exactly the device's `is_open` value. -/
theorem c10_binary_sensor_is_on (e : BinarySensorState) (v : Option Int)
    (w : Option Bool) :
    (e.device.battery = none → battery_is_on e = none) ∧
    (e.device.battery = some v → battery_is_on e = some (v == some 1)) ∧
    (e.device.battery = some (some 1) → battery_is_on e = some true) ∧
    (e.device.battery = some (some 0) → battery_is_on e = some false) ∧
    (e.device.battery = some none → battery_is_on e = some false) ∧
    (e.device.is_open = none → shutter_is_on e = none) ∧
    (e.device.is_open = some w → shutter_is_on e = w) := by
  refine ⟨?_, ?_, ?_, ?_, ?_, ?_, ?_⟩ <;> intro h <;>
    simp [battery_is_on, shutter_is_on, h]

/-- C10 witness: concrete sensors — low battery reads on, battery 0 reads
off, a device without the battery attribute reads unknown, and the open
shutter reads on. -/
theorem c10_binary_sensor_is_on_witness :
    battery_is_on ⟨dev_batt_low⟩ = some true ∧
    battery_is_on ⟨devA⟩ = some false ∧
    battery_is_on ⟨dev_shutter⟩ = none ∧
    shutter_is_on ⟨dev_shutter⟩ = some true := by
  refine ⟨?_, ?_, ?_, ?_⟩
  · exact (c10_binary_sensor_is_on ⟨dev_batt_low⟩ (some 1) none).2.2.1 rfl
  · exact (c10_binary_sensor_is_on ⟨devA⟩ (some 0) none).2.2.2.1 rfl
  · exact (c10_binary_sensor_is_on ⟨dev_shutter⟩ (some 1) none).1 rfl
  · exact (c10_binary_sensor_is_on ⟨dev_shutter⟩ (some 1) (some true)).2.2.2.2.2.2 rfl

end MaxcubeHA
